import Mathlib

/-!
Verification of the EASY_NL_SMS_SYSTEM dispatch engine.

This file gives a shallow embedding, in Lean 4, of the dispatch core of the
repository: the gateway protocol codec and client (`modules/sms_gateway.py`),
the recipient validation and free-form phone parsing, the 20-entry batching
loops of `main.py`, the scheduler tick (`process_scheduled_sms` /
`scheduled_task` in `main.py`), the immediate-send path (`send_sms_now` in
`main.py`), and the batch insert of `modules/db_handler.py`.  Pure Python
functions become Lean functions; the network and the database are modelled by
explicit oracles and event logs; Python exceptions become an explicit
`Except` with a `PyExc` error type.

Python string methods are modelled on character lists so that every
definition evaluates inside the kernel.  The predicates that consult the
Unicode database (`str.strip`, `str.isdigit`) are modelled faithfully for
the Basic Latin and Latin-1 Supplement blocks, which cover every character
the development evaluates them on; in particular the model keeps
`str.isdigit`'s acceptance of the Latin-1 superscript digits `'¹'`, `'²'`,
`'³'`, which are digit characters but not decimal digits.
-/

/-- Python exceptions that the dispatch core can raise. -/
inductive PyExc where
  /-- `KeyError(key)` from a dict subscript `d[key]` on a missing key. -/
  | keyError (key : String)
  /-- `TypeError`, e.g. from `datetime.replace` given a string argument. -/
  | typeError (msg : String)
  /-- `httpx.RequestError`: connection refused, DNS failure, or the 30-second
      per-call timeout (`httpx.TimeoutException` is a `RequestError`). -/
  | requestError (msg : String)
  /-- `xml.etree.ElementTree.ParseError` from `ET.fromstring`. -/
  | parseError (msg : String)
  /-- a database error raised by `psycopg2` during `cursor.execute`. -/
  | dbError (msg : String)
  deriving Repr, DecidableEq

/-- Python `str(e)` for the exceptions above (`KeyError` prints its key in
    quotes). -/
def PyExc.text : PyExc → String
  | .keyError k => "'" ++ k ++ "'"
  | .typeError m => m
  | .requestError m => m
  | .parseError m => m
  | .dbError m => m

/-! ## Python string primitives, modelled on character lists -/

/-- The characters of the Basic Latin and Latin-1 Supplement blocks that
    Python `str.strip()` removes: ASCII whitespace, the separator controls
    U+001C..U+001F, NEL (U+0085) and NO-BREAK SPACE (U+00A0). -/
def isPySpace (c : Char) : Bool :=
  c == ' ' || c == '\t' || c == '\n' || c == '\r' || c == '\x0b' || c == '\x0c'
    || c == '\x1c' || c == '\x1d' || c == '\x1e' || c == '\x1f'
    || c == '\x85' || c == '\xa0'

/-- Python `s.strip()`: drop leading and trailing whitespace. -/
def pyStrip (s : String) : String :=
  String.mk (((s.toList.dropWhile isPySpace).reverse.dropWhile isPySpace).reverse)

/-- Split a character list at every occurrence of `sep`, keeping empty
    fragments — the behaviour of Python `str.split(sep)` for a one-character
    separator (`"a,,b".split(',') == ['a','','b']`, `''.split(',') == ['']`). -/
def splitCharsOn (sep : Char) (l : List Char) : List (List Char) :=
  l.foldr
    (fun c acc =>
      if c == sep then [] :: acc
      else
        match acc with
        | h :: t => (c :: h) :: t
        | [] => [[c]])
    [[]]

/-- Python `s.split(sep)` for a one-character separator. -/
def pySplit (s : String) (sep : Char) : List String :=
  (splitCharsOn sep s.toList).map String.mk

/-- `p` is a prefix of `l`, decided character by character. -/
def listStartsWith : List Char → List Char → Bool
  | [], _ => true
  | _ :: _, [] => false
  | p :: ps, c :: cs => p == c && listStartsWith ps cs

/-- Python `s.startswith(pre)`. -/
def pyStartsWith (s pre : String) : Bool :=
  listStartsWith pre.toList s.toList

/-- Python's per-character `str.isdigit` test (Unicode Numeric_Type Digit or
    Decimal), for the Basic Latin and Latin-1 Supplement blocks: the decimal
    digits `'0'..'9'` and the superscripts `'¹'`, `'²'`, `'³'`, which are
    digit characters but not decimal digits (the Latin-1 fractions such as
    `'¼'` have Numeric_Type Numeric and are not `isdigit`).  Digit
    characters above U+00FF (e.g. the Arabic-Indic digits) lie outside the
    strings this development evaluates the model on. -/
def pyCharIsDigit (c : Char) : Bool :=
  c.isDigit || c == '¹' || c == '²' || c == '³'

/-- Python `s.isdigit()`: non-empty and every character a digit character. -/
def pyIsDigit (s : String) : Bool :=
  !s.toList.isEmpty && s.toList.all pyCharIsDigit

/-- Python `len(s)`: the number of characters. -/
def pyLen (s : String) : Nat := s.toList.length

/-- Python `sep.join(l)`. -/
def pyJoin (sep : String) : List String → String
  | [] => ""
  | [x] => x
  | x :: y :: xs => x ++ sep ++ pyJoin sep (y :: xs)

/-- Python `str(b).lower()` for a bool: `"true"` or `"false"`. -/
def pyBoolStr (b : Bool) : String := if b then "true" else "false"

/-! ## UTF-8 and base64 (`base64.b64encode(message.encode('utf-8'))`) -/

/-- The UTF-8 byte sequence of one character, bytes as `Nat`s below 256. -/
def utf8EncodeChar (c : Char) : List Nat :=
  let n := c.toNat
  if n < 0x80 then [n]
  else if n < 0x800 then [0xC0 + n / 64, 0x80 + n % 64]
  else if n < 0x10000 then
    [0xE0 + n / 4096, 0x80 + (n / 64) % 64, 0x80 + n % 64]
  else
    [0xF0 + n / 262144, 0x80 + (n / 4096) % 64, 0x80 + (n / 64) % 64, 0x80 + n % 64]

/-- Python `message.encode('utf-8')`, as a list of byte values. -/
def utf8Bytes (s : String) : List Nat :=
  (s.toList.map utf8EncodeChar).flatten

/-- The 64 digits of the standard base64 alphabet. -/
def base64Chars : List Char :=
  "ABCDEFGHIJKLMNOPQRSTUVWXYZabcdefghijklmnopqrstuvwxyz0123456789+/".toList

/-- The base64 digit for a 6-bit value. -/
def base64Digit (n : Nat) : Char := base64Chars.getD n '?'

/-- Standard base64 of a byte list, with `'='` padding. -/
def base64Bytes : List Nat → List Char
  | [] => []
  | [a] =>
    [base64Digit (a / 4), base64Digit (a % 4 * 16), '=', '=']
  | [a, b] =>
    [base64Digit (a / 4), base64Digit (a % 4 * 16 + b / 16),
     base64Digit (b % 16 * 4), '=']
  | a :: b :: c :: rest =>
    base64Digit (a / 4) :: base64Digit (a % 4 * 16 + b / 16) ::
    base64Digit (b % 16 * 4 + c / 64) :: base64Digit (c % 64) ::
    base64Bytes rest

/-- Python `base64.b64encode(s.encode('utf-8')).decode('utf-8')`. -/
def b64encode (s : String) : String := String.mk (base64Bytes (utf8Bytes s))

example : b64encode "hello" = "aGVsbG8=" := by decide

/-! ## Gateway protocol codec (`modules/sms_gateway.py`) -/

/-- The fixed configuration a `SMSGateway` instance reads from `settings` at
    construction: `sys_id`, `src_address`, `dr_flag`, `first_fail_flag`. -/
structure GatewayConfig where
  sys_id : String
  src_address : String
  dr_flag : Bool
  first_fail_flag : Bool
  deriving Repr, DecidableEq

/-- The opening of the request document, through `</SrcAddress>`, exactly as
    the f-string literal of `_build_xml_request` lays it out. -/
def reqOpening (cfg : GatewayConfig) : String :=
  "<?xml version=\"1.0\" encoding=\"UTF-8\"?>\n<SmsSubmitReq>\n    <SysId>"
    ++ cfg.sys_id ++ "</SysId>\n    <SrcAddress>" ++ cfg.src_address
    ++ "</SrcAddress>"

/-- The line appended for one recipient:
    `\n    <DestAddress>{recipient.strip()}</DestAddress>`. -/
def destAddressElem (recipient : String) : String :=
  "\n    <DestAddress>" ++ pyStrip recipient ++ "</DestAddress>"

/-- The closing of the request document, from `<SmsBody>` on: body base64,
    then `DrFlag`, then `FirstFailFlag`, then the closing root tag. -/
def reqClosing (cfg : GatewayConfig) (message : String) : String :=
  "\n    <SmsBody>" ++ b64encode message ++ "</SmsBody>\n    <DrFlag>"
    ++ pyBoolStr cfg.dr_flag ++ "</DrFlag>\n    <FirstFailFlag>"
    ++ pyBoolStr cfg.first_fail_flag ++ "</FirstFailFlag>\n</SmsSubmitReq>"

/-- `SMSGateway._build_xml_request`: the opening, then one `DestAddress` line
    appended per recipient by the `for recipient in recipients` loop, then the
    closing with the base64-encoded body. -/
def _build_xml_request (cfg : GatewayConfig) (recipients : List String)
    (message : String) : String :=
  (recipients.foldl (fun acc r => acc ++ destAddressElem r) (reqOpening cfg))
    ++ reqClosing cfg message

/-- Whether `sub` occurs as a substring of `s`, via character lists. -/
def strContains (s sub : String) : Bool :=
  let rec go : List Char → Bool
    | [] => listStartsWith sub.toList []
    | c :: cs => listStartsWith sub.toList (c :: cs) || go cs
  go s.toList

/-! ## Gateway response decoding and the gateway client -/

/-- The body of an HTTP response, as seen by `_parse_xml_response`: either a
    well-formed XML document, abstracted to the ordered list of its direct
    child elements (tag, text — `child.text` is `None` for an empty element),
    or malformed text on which `ET.fromstring` raises `ParseError`. -/
inductive XmlBody where
  | wellFormed (children : List (String × Option String))
  | malformed
  deriving Repr, DecidableEq

/-- `SMSGateway._parse_xml_response`: `ET.fromstring`, then
    `for child in root: result[child.tag] = child.text`; a `ParseError` is
    logged and re-raised.  The returned dict is represented by the child list
    itself; lookups below follow the last-assignment-wins dict semantics. -/
def _parse_xml_response : XmlBody → Except PyExc (List (String × Option String))
  | .malformed => .error (.parseError "syntax error")
  | .wellFormed children => .ok children

/-- Python `result.get(k, dflt)` on the dict built by assigning the children
    in document order: the value of the last child with tag `k`, or `dflt`
    when no child has tag `k`. -/
def pyGet (children : List (String × Option String)) (k : String)
    (dflt : Option String) : Option String :=
  match (children.filter (fun p => p.1 == k)).getLast? with
  | some p => p.2
  | none => dflt

/-- The outcome dict `send_sms` returns: it always carries the three keys
    `result_code`, `result_text`, `message_id` (values are Python strings or
    `None`, hence `Option String`). -/
structure Outcome where
  result_code : Option String
  result_text : Option String
  message_id : Option String
  deriving Repr, DecidableEq

/-- What the network did for one `client.post` call: either an HTTP exchange
    that completed with a status code and a response body, or an
    `httpx.RequestError` (connection refused, DNS failure, the 30-second
    timeout, ...). -/
inductive NetResult where
  | response (status : Nat) (body : XmlBody)
  | transportError (msg : String)
  deriving Repr, DecidableEq

/-- The `try` block of `SMSGateway.send_sms`: post the request; on status 200
    parse the response and read `ResultCode` / `ResultText` / `MessageId`
    with `''` defaults, succeeding iff `ResultCode == '00000'`; on any other
    status return the `HTTP_ERROR` outcome.  Transport and parse failures
    are raised to the handlers. -/
def send_sms_try (net : NetResult) : Except PyExc (Bool × Outcome) :=
  match net with
  | .transportError msg => .error (.requestError msg)
  | .response status body =>
    if status == 200 then do
      let result ← _parse_xml_response body
      let result_code := pyGet result "ResultCode" (some "")
      let result_text := pyGet result "ResultText" (some "")
      let message_id := pyGet result "MessageId" (some "")
      let success := result_code == some "00000"
      return (success, ⟨result_code, result_text, message_id⟩)
    else
      .ok (false,
        ⟨some "HTTP_ERROR", some ("HTTP錯誤: " ++ toString status), some ""⟩)

/-- `SMSGateway.send_sms`: the `try` block above with its two exception
    handlers — `except httpx.RequestError` gives the `NETWORK_ERROR` outcome,
    the final `except Exception` (which catches the parse failure among
    others) gives the `SYSTEM_ERROR` outcome.  Total: it never raises. -/
def send_sms (net : NetResult) : Bool × Outcome :=
  match send_sms_try net with
  | .ok r => r
  | .error (.requestError msg) =>
    (false, ⟨some "NETWORK_ERROR", some ("網路請求錯誤: " ++ msg), some ""⟩)
  | .error e =>
    (false, ⟨some "SYSTEM_ERROR", some ("系統錯誤: " ++ e.text), some ""⟩)

/-! ## Recipient validation and free-form phone parsing -/

/-- The validity test of `validate_phone_numbers`, applied after stripping:
    `phone.startswith('09') and len(phone) == 10 and phone.isdigit()`. -/
def isValidPhone (phone : String) : Bool :=
  pyStartsWith phone "09" && pyLen phone == 10 && pyIsDigit phone

/-- `SMSGateway.validate_phone_numbers`: strip each entry, appending it to
    `valid_numbers` or `invalid_numbers`; return
    `(len(invalid_numbers) == 0, valid_numbers)`. -/
def validate_phone_numbers (phone_numbers : List String) : Bool × List String :=
  let acc := phone_numbers.foldl
    (fun (acc : List String × List String) phone =>
      let phone := pyStrip phone
      if isValidPhone phone then (acc.1 ++ [phone], acc.2)
      else (acc.1, acc.2 ++ [phone]))
    ([], [])
  (acc.2.length == 0, acc.1)

/-- `SMSGateway.format_phone_list`: starting from `[phone_string]`, split
    every fragment on `','`, then every fragment on `';'`, then keep the
    stripped form of every fragment whose stripped form is non-empty. -/
def format_phone_list (phone_string : String) : List String :=
  let separators := [',', ';']
  let phone_list := separators.foldl
    (fun phone_list sep =>
      phone_list.foldl (fun new_list phone => new_list ++ pySplit phone sep) [])
    [phone_string]
  (phone_list.filter (fun phone => !(pyStrip phone == ""))).map pyStrip

/-! ## Batching (`batch_size = 20` loops in `main.py`) -/

/-- Python `range(0, n, step)` for a positive step: the multiples of `step`
    below `n`. -/
def pyRange (n step : Nat) : List Nat :=
  (List.range ((n + step - 1) / step)).map (· * step)

/-- The fixed `batch_size = 20` of `send_sms_now` and `schedule_sms`. -/
def batch_size : Nat := 20

/-- The batching loop of `send_sms_now` / `schedule_sms`:
    `for i in range(0, len(valid_phones), batch_size)` with the slice
    `valid_phones[i:i+batch_size]` as the batch. -/
def batches {α : Type} (valid_phones : List α) : List (List α) :=
  (pyRange valid_phones.length batch_size).map
    (fun i => (valid_phones.drop i).take batch_size)

/-- Recursive presentation of the same chunking, used in the proofs below:
    take 20, recurse on the rest. -/
def chunks20 {α : Type} (l : List α) : List (List α) :=
  match h : l with
  | [] => []
  | _ :: _ => l.take 20 :: chunks20 (l.drop 20)
  termination_by l.length
  decreasing_by simp [h, List.length_drop]; omega

/-! ## Per-call effects on the store and the gateway

The database and the network are external; calls to them are recorded as an
ordered event log, so that theorems can talk about which calls a code path
performed and in which order. -/

/-- One observable external call of the dispatch paths. -/
inductive Event where
  /-- one `sms_gateway.send_sms(recipients, body)` network exchange -/
  | gatewayCall (recipients : List String) (body : String)
  /-- one `db_handler.update_sms_status(smskey, return_code, return_message,
      message_id)` row-scoped UPDATE, which sets `send_date = NOW()` -/
  | statusUpdate (smskey : Int) (return_code return_message message_id : Option String)
  /-- one `db_handler.insert_sms_message(...)` INSERT returning `smskey` -/
  | insertMessage (message_class message_body recipient_no : String)
      (schedule_date send_date : Option String) (smskey : Int)
  deriving Repr, DecidableEq

/-- Does an event persist a dispatch record (an INSERT)? -/
def Event.isInsert : Event → Bool
  | .insertMessage _ _ _ _ _ _ => true
  | _ => false

/-- Does an event write a terminal status (an UPDATE)? -/
def Event.isUpdate : Event → Bool
  | .statusUpdate _ _ _ _ => true
  | _ => false

/-! ## The scheduler tick (`process_scheduled_sms` in `main.py`) -/

/-- A Python value stored in a result row. -/
inductive PyVal where
  | str (s : String)
  | int (n : Int)
  | none
  deriving Repr, DecidableEq

/-- Python `s` coerced from a `PyVal` known to hold a string. -/
def PyVal.asStr : PyVal → String
  | .str s => s
  | _ => ""

/-- Python `n` coerced from a `PyVal` known to hold an int. -/
def PyVal.asInt : PyVal → Int
  | .int n => n
  | _ => 0

/-- A `RealDictRow`: an ordered association of column names to values. -/
def PyDict : Type := List (String × PyVal)

/-- Python `d[k]`: the last binding of `k`, or a raised `KeyError`. -/
def PyDict.getItem (d : PyDict) (k : String) : Except PyExc PyVal :=
  match (d.filter (fun p => p.1 == k)).getLast? with
  | some p => .ok p.2
  | Option.none => .error (.keyError k)

/-- One row of `get_pending_sms_messages`' result, by field. -/
structure PendingRow where
  smskey : Int
  message_body : String
  recipient_no : String
  schedule_date : Option String
  deriving Repr, DecidableEq

/-- The `RealDictRow` that `get_pending_sms_messages` produces for one result
    row.  Its SELECT list is `smskey, message_body, recipient_no,
    schedule_date`; PostgreSQL returns unquoted identifiers lowercased, so
    these four lowercase strings are exactly the dict's keys. -/
def PendingRow.toDict (r : PendingRow) : PyDict :=
  [("smskey", .int r.smskey),
   ("message_body", .str r.message_body),
   ("recipient_no", .str r.recipient_no),
   ("schedule_date", match r.schedule_date with
     | some d => .str d
     | Option.none => .none)]

/-- The body of the per-row `try` in `process_scheduled_sms`, against a
    network oracle `net` (what the wire does for each gateway call) and a
    store oracle `upd` (whether the UPDATE of a given key raises).  Returns
    the `success` flag or the raised exception, together with the external
    calls performed before the exception, in order:
    `recipients = message['RecipientNo'].split(',')`, then
    `send_sms(recipients, message['MessageBody'])`, then
    `update_sms_status(message['smskey'], result[...])`. -/
def processRow (net : List String → String → NetResult)
    (upd : Int → Except PyExc Unit) (message : PyDict) :
    Except PyExc Bool × List Event :=
  match message.getItem "RecipientNo" with
  | .error e => (.error e, [])
  | .ok recipientsVal =>
    let recipients := pySplit recipientsVal.asStr ','
    match message.getItem "MessageBody" with
    | .error e => (.error e, [])
    | .ok bodyVal =>
      let body := bodyVal.asStr
      let (success, result) := send_sms (net recipients body)
      let callEvt := Event.gatewayCall recipients body
      match message.getItem "smskey" with
      | .error e => (.error e, [callEvt])
      | .ok keyVal =>
        match upd keyVal.asInt with
        | .error e => (.error e, [callEvt])
        | .ok _ =>
          (.ok success,
           [callEvt,
            Event.statusUpdate keyVal.asInt result.result_code
              result.result_text result.message_id])

/-- The row loop of `process_scheduled_sms`: each row's `try` body runs under
    a per-row `except Exception ... continue`, so an error only skips the
    `processed_count` increment.  Returns `processed_count` and the combined
    event log. -/
def processLoop (net : List String → String → NetResult)
    (upd : Int → Except PyExc Unit) (pending_messages : List PyDict) :
    Nat × List Event :=
  pending_messages.foldl
    (fun acc message =>
      match processRow net upd message with
      | (.ok success, evts) =>
        (if success then acc.1 + 1 else acc.1, acc.2 ++ evts)
      | (.error _, evts) => (acc.1, acc.2 ++ evts))
    (0, [])

/-- The JSON a call to the `process_scheduled_sms` endpoint answers with. -/
inductive TickResponse where
  /-- `{"success": True, "processed_count": …, "total_pending": …}` -/
  | ok (processed_count total_pending : Nat)
  /-- `{"success": False, "message": …, "processed_count": 0}` from the
      tick-level `except Exception` handler -/
  | failed (message : String)
  deriving Repr, DecidableEq

/-- `process_scheduled_sms`: fetch the pending rows (which may itself raise),
    run the row loop, and answer; the tick-level `try`/`except` turns any
    escaping exception into a `success: False` answer instead of raising. -/
def process_scheduled_sms (net : List String → String → NetResult)
    (upd : Int → Except PyExc Unit)
    (fetch : Except PyExc (List PyDict)) : TickResponse × List Event :=
  match fetch with
  | .error e => (.failed e.text, [])
  | .ok pending_messages =>
    let (processed_count, events) := processLoop net upd pending_messages
    (.ok processed_count pending_messages.length, events)

/-- One iteration of `scheduled_task`'s `while True`: sleep, then run the
    tick, under `try`/`except Exception` — whatever the iteration's body
    does, the exception (if any) is logged and the loop goes around again. -/
def scheduled_task_step (tick : Except PyExc Unit) : Except PyExc Unit :=
  match tick with
  | .ok _ => .ok ()
  | .error _ => .ok ()

/-- `n` iterations of `scheduled_task`'s loop, with an arbitrary outcome for
    each iteration's body. -/
def scheduled_task_run (ticks : Nat → Except PyExc Unit) (n : Nat) :
    Except PyExc Unit :=
  (List.range n).foldl (fun acc i => acc.bind fun _ => scheduled_task_step (ticks i))
    (.ok ())

/-! ## The immediate-send path (`send_sms_now` in `main.py`) -/

/-- The expression `datetime.now().replace('T', ' ')` on line 348 of
    `main.py`: `datetime.now()` is a `datetime` object, whose `replace`
    method takes integer date/time components — the positional string
    argument raises `TypeError` (the string `replace` the author intended
    exists on `str`, not on `datetime`; compare line 240, where the same
    `.replace('T', ' ')` is applied to the *string* `schedule_date`). -/
def datetime_now_replace : Except PyExc String :=
  .error (.typeError "replace() argument 1 must be int, not str")

/-- The running state of `send_sms_now`'s batch loop: the accumulated
    `sms_keys` and `results` lists, the event log, and the next key the
    store's sequence would assign. -/
structure NowAcc where
  sms_keys : List Int
  results : List Outcome
  events : List Event
  next_key : Int
  deriving Repr, DecidableEq

/-- The batch loop of `send_sms_now`, over the already-formed batches.  For
    each batch: one gateway call, append its outcome to `results`; then, only
    `if success:`, evaluate the `insert_sms_message` arguments — evaluating
    `send_date` raises the `TypeError` above, which aborts the loop — and
    otherwise (dead code, kept faithful to the source) insert the record and
    update its status.  Returns the exception that escaped (if any) and the
    state reached. -/
def sendNowGo (net : List String → String → NetResult) (message_body : String) :
    List (List String) → NowAcc → Option PyExc × NowAcc
  | [], acc => (Option.none, acc)
  | batch_phones :: rest, acc =>
    let (success, result) := send_sms (net batch_phones message_body)
    let acc := { acc with
      results := acc.results ++ [result],
      events := acc.events ++ [Event.gatewayCall batch_phones message_body] }
    if success then
      match datetime_now_replace with
      | .error e => (some e, acc)
      | .ok now_str =>
        let formatted_recipients := pyJoin "," batch_phones
        let key := acc.next_key
        let acc := { acc with
          events := acc.events
            ++ [Event.insertMessage "IMMEDIATE" message_body
                  formatted_recipients Option.none (some now_str) key,
                Event.statusUpdate key result.result_code result.result_text
                  result.message_id],
          sms_keys := acc.sms_keys ++ [key],
          next_key := key + 1 }
        sendNowGo net message_body rest acc
    else
      sendNowGo net message_body rest acc

/-- The JSON answer of the `send_sms_now` endpoint. -/
inductive NowResponse where
  /-- `{"success": True, "message": …, "sms_keys": …, "results": …}` -/
  | ok (sms_keys : List Int) (results : List Outcome)
  /-- `{"success": False, "message": str(e)}` from the endpoint's
      `except Exception` handler -/
  | failed (message : String)
  deriving Repr, DecidableEq

/-- `send_sms_now` after validation has produced `valid_phones`: run the
    batch loop over `valid_phones[i:i+20]` slices; an exception escaping the
    loop is caught by the endpoint's `except Exception`, which answers
    `success: False` — external calls already performed stay performed. -/
def send_sms_now (net : List String → String → NetResult)
    (message_body : String) (valid_phones : List String) (next_key : Int) :
    NowResponse × List Event :=
  match sendNowGo net message_body (batches valid_phones)
      ⟨[], [], [], next_key⟩ with
  | (some e, acc) => (.failed e.text, acc.events)
  | (Option.none, acc) => (.ok acc.sms_keys acc.results, acc.events)

/-! ## The batch insert (`db_handler.batch_insert_sms_messages`) -/

/-- One message dict passed to `batch_insert_sms_messages`, by field
    (`message.get('schedule_date')` defaults to `None`). -/
structure MsgDict where
  message_class : String
  message_body : String
  recipient_no : String
  schedule_date : Option String
  deriving Repr, DecidableEq

/-- A persisted `sms_message` row, as far as the batch insert writes it. -/
structure SmsRow where
  smskey : Int
  message_class : String
  message_body : String
  recipient_no : String
  schedule_date : Option String
  deriving Repr, DecidableEq

/-- The visible store: the persisted rows and the next sequence value
    (`SELECT LASTVAL()` after the INSERT reads the key just assigned). -/
structure Db where
  rows : List SmsRow
  next_key : Int
  deriving Repr, DecidableEq

/-- The row the loop's INSERT writes for one message. -/
def MsgDict.toRow (m : MsgDict) (key : Int) : SmsRow :=
  ⟨key, m.message_class, m.message_body, m.recipient_no, m.schedule_date⟩

/-- The insert loop of `batch_insert_sms_messages`, running on the single
    cursor's connection.  `working` is the uncommitted transaction state;
    `fail i = true` means the `i`-th INSERT raises a database error. -/
def batchInsertGo (fail : Nat → Bool) :
    List MsgDict → Nat → Db → List Int → Except PyExc (Db × List Int)
  | [], _, working, sms_keys => .ok (working, sms_keys)
  | message :: rest, i, working, sms_keys =>
    if fail i then .error (.dbError "insert failed")
    else
      let key := working.next_key
      let working := ⟨working.rows ++ [message.toRow key], key + 1⟩
      batchInsertGo fail rest (i + 1) working (sms_keys ++ [key])

/-- `batch_insert_sms_messages`: an empty list returns `[]` at once; else
    all inserts run on one cursor inside one `get_cursor` context, which
    commits once after the loop and rolls the transaction back (leaving the
    store unchanged) and re-raises if any statement raised. -/
def batch_insert_sms_messages (fail : Nat → Bool) (messages : List MsgDict)
    (db : Db) : Except PyExc (List Int) × Db :=
  match messages with
  | [] => (.ok [], db)
  | _ :: _ =>
    match batchInsertGo fail messages 0 db [] with
    | .ok (working, sms_keys) => (.ok sms_keys, working)
    | .error e => (.error e, db)

/-! ## Theorems -/

/-- `pyGet` returns the default when no child has the requested tag. -/
theorem pyGet_of_absent (children : List (String × Option String)) (k : String)
    (dflt : Option String) (h : ∀ p ∈ children, p.1 ≠ k) :
    pyGet children k dflt = dflt := by
  unfold pyGet
  have : children.filter (fun p => p.1 == k) = [] := by
    apply List.filter_eq_nil_iff.mpr
    intro p hp
    simpa using h p hp
  rw [this]
  rfl

/-- Claim C3: for every recipient list and message body, the gateway client's
`send_sms` returns a `(success, outcome)` pair and never raises (it is a
total function into `Bool × Outcome`, whose record carries `result_code`,
`result_text`, `message_id` by construction); a transport-level exception —
`httpx.RequestError`, which includes exceeding the 30-second per-call
timeout — yields `NETWORK_ERROR`; a non-200 HTTP status yields `HTTP_ERROR`
with the status in `result_text`; any other exception during the call,
including an XML decode failure of a 200 response, yields `SYSTEM_ERROR`;
the four cases below are exhaustive and mutually exclusive, matching the
order the source checks them in. -/
theorem claim_C3_gateway_error_classification (net : NetResult) :
    (∀ msg, net = NetResult.transportError msg →
      send_sms net =
        (false, ⟨some "NETWORK_ERROR", some ("網路請求錯誤: " ++ msg), some ""⟩)) ∧
    (∀ status body, net = NetResult.response status body → status ≠ 200 →
      send_sms net =
        (false, ⟨some "HTTP_ERROR", some ("HTTP錯誤: " ++ toString status), some ""⟩)) ∧
    (net = NetResult.response 200 XmlBody.malformed →
      (send_sms net).1 = false ∧
      (send_sms net).2.result_code = some "SYSTEM_ERROR") ∧
    (∀ children, net = NetResult.response 200 (XmlBody.wellFormed children) →
      send_sms net =
        (pyGet children "ResultCode" (some "") == some "00000",
         ⟨pyGet children "ResultCode" (some ""),
          pyGet children "ResultText" (some ""),
          pyGet children "MessageId" (some "")⟩)) := by
  refine ⟨?_, ?_, ?_, ?_⟩
  · intro msg h
    subst h
    rfl
  · intro status body h hs
    subst h
    have : (status == 200) = false := by simpa using hs
    cases body <;> simp [send_sms, send_sms_try, this]
  · intro h
    subst h
    exact ⟨rfl, rfl⟩
  · intro children h
    subst h
    simp [send_sms, send_sms_try, _parse_xml_response, Except.bind]

/-- Witness for C3: the three failure classifications at concrete calls — a
timeout, a 500 status, and a malformed 200 response. -/
theorem claim_C3_gateway_error_classification_witness :
    send_sms (NetResult.transportError "timed out") =
      (false, ⟨some "NETWORK_ERROR", some ("網路請求錯誤: " ++ "timed out"), some ""⟩) ∧
    send_sms (NetResult.response 500 (XmlBody.wellFormed [])) =
      (false, ⟨some "HTTP_ERROR", some ("HTTP錯誤: " ++ toString 500), some ""⟩) ∧
    (send_sms (NetResult.response 200 XmlBody.malformed)).1 = false ∧
    (send_sms (NetResult.response 200 XmlBody.malformed)).2.result_code =
      some "SYSTEM_ERROR" := by
  refine ⟨?_, ?_, ?_, ?_⟩
  · exact (claim_C3_gateway_error_classification
      (NetResult.transportError "timed out")).1 "timed out" rfl
  · exact (claim_C3_gateway_error_classification
      (NetResult.response 500 (XmlBody.wellFormed []))).2.1 500
      (XmlBody.wellFormed []) rfl (by decide)
  · exact ((claim_C3_gateway_error_classification
      (NetResult.response 200 XmlBody.malformed)).2.2.1 rfl).1
  · exact ((claim_C3_gateway_error_classification
      (NetResult.response 200 XmlBody.malformed)).2.2.1 rfl).2

/-- Claim C4: for every well-formed XML response, decoding reads the direct
child elements into a flat tag-to-text map (last assignment wins), and the
success flag is true iff the `ResultCode` field is exactly `"00000"`; any
other value, or an absent `ResultCode`, gives success = false while the
decoded `result_code` / `result_text` / `message_id` are still returned, an
absent `MessageId` yielding the empty string. -/
theorem claim_C4_decode_success_predicate
    (children : List (String × Option String)) :
    _parse_xml_response (XmlBody.wellFormed children) = .ok children ∧
    send_sms (NetResult.response 200 (XmlBody.wellFormed children)) =
      (pyGet children "ResultCode" (some "") == some "00000",
       ⟨pyGet children "ResultCode" (some ""),
        pyGet children "ResultText" (some ""),
        pyGet children "MessageId" (some "")⟩) ∧
    ((send_sms (NetResult.response 200 (XmlBody.wellFormed children))).1 = true ↔
      pyGet children "ResultCode" (some "") = some "00000") ∧
    ((∀ p ∈ children, p.1 ≠ "ResultCode") →
      (send_sms (NetResult.response 200 (XmlBody.wellFormed children))).1 = false ∧
      (send_sms (NetResult.response 200 (XmlBody.wellFormed children))).2.result_code
        = some "") ∧
    ((∀ p ∈ children, p.1 ≠ "MessageId") →
      (send_sms (NetResult.response 200 (XmlBody.wellFormed children))).2.message_id
        = some "") := by
  have hchar := (claim_C3_gateway_error_classification
    (NetResult.response 200 (XmlBody.wellFormed children))).2.2.2 children rfl
  refine ⟨rfl, hchar, ?_, ?_, ?_⟩
  · rw [hchar]
    simp
  · intro habs
    rw [hchar, pyGet_of_absent children "ResultCode" (some "") habs]
    exact ⟨rfl, rfl⟩
  · intro habs
    rw [hchar, pyGet_of_absent children "MessageId" (some "") habs]

/-- Witness for C4: a response whose only child is `<Foo>1</Foo>` — no
`ResultCode`, no `MessageId` — decodes to a non-success outcome with empty
`result_code` and `message_id`. -/
theorem claim_C4_decode_success_predicate_witness :
    (send_sms (NetResult.response 200
        (XmlBody.wellFormed [("Foo", some "1")]))).1 = false ∧
    (send_sms (NetResult.response 200
        (XmlBody.wellFormed [("Foo", some "1")]))).2.result_code = some "" ∧
    (send_sms (NetResult.response 200
        (XmlBody.wellFormed [("Foo", some "1")]))).2.message_id = some "" := by
  have h := claim_C4_decode_success_predicate [("Foo", some "1")]
  exact ⟨(h.2.2.2.1 (by decide)).1, (h.2.2.2.1 (by decide)).2,
         h.2.2.2.2 (by decide)⟩

/-- A list has no entries failing `p` iff `all p` holds; stated on the
`length == 0` form `validate_phone_numbers` computes. -/
theorem length_filter_not_eq_zero {α : Type} (p : α → Bool) (l : List α) :
    ((l.filter fun x => !p x).length == 0) = l.all p := by
  induction l with
  | nil => rfl
  | cons x xs ih =>
    cases hx : p x <;> simp [List.filter_cons, hx, ih]

/-- The accumulating loop of `validate_phone_numbers`, with its running
`(valid, invalid)` pair made explicit. -/
theorem validate_foldl (l : List String) :
    ∀ va ia : List String,
      l.foldl
        (fun (acc : List String × List String) phone =>
          let phone := pyStrip phone
          if isValidPhone phone then (acc.1 ++ [phone], acc.2)
          else (acc.1, acc.2 ++ [phone]))
        (va, ia) =
      (va ++ (l.map pyStrip).filter isValidPhone,
       ia ++ (l.map pyStrip).filter fun p => !isValidPhone p) := by
  induction l with
  | nil => simp
  | cons x xs ih =>
    intro va ia
    cases hx : isValidPhone (pyStrip x) <;>
      simp [List.foldl_cons, hx, ih, List.filter_cons]

/-- On Latin-1, a character below U+0080 is a Python digit character exactly
when it is a decimal digit `'0'..'9'`. -/
theorem pyCharIsDigit_ascii (c : Char) (h : c.toNat < 128) :
    pyCharIsDigit c = c.isDigit := by
  have h1 : (c == '¹') = false := by
    apply beq_eq_false_iff_ne.mpr
    rintro rfl
    exact absurd h (by decide)
  have h2 : (c == '²') = false := by
    apply beq_eq_false_iff_ne.mpr
    rintro rfl
    exact absurd h (by decide)
  have h3 : (c == '³') = false := by
    apply beq_eq_false_iff_ne.mpr
    rintro rfl
    exact absurd h (by decide)
  simp [pyCharIsDigit, h1, h2, h3]

/-- On an ASCII string the source's validity test is exactly the claim's
reading: starts with `"09"`, exactly 10 characters, all decimal digits. -/
theorem isValidPhone_ascii_iff (s : String)
    (h : ∀ c ∈ s.toList, c.toNat < 128) :
    isValidPhone s = true ↔
      (pyStartsWith s "09" = true ∧ pyLen s = 10 ∧
       ∀ c ∈ s.toList, c.isDigit = true) := by
  simp only [isValidPhone, pyIsDigit, pyLen, Bool.and_eq_true,
    Bool.not_eq_true', beq_iff_eq, List.all_eq_true]
  constructor
  · rintro ⟨⟨hs, hl⟩, _, hd⟩
    refine ⟨hs, hl, fun c hc => ?_⟩
    rw [← pyCharIsDigit_ascii c (h c hc)]
    exact hd c hc
  · rintro ⟨hs, hl, hd⟩
    refine ⟨⟨hs, hl⟩, ?_, fun c hc => ?_⟩
    · cases hcase : s.toList with
      | nil => rw [hcase] at hl; simp at hl
      | cons a t => simp [hcase]
    · rw [pyCharIsDigit_ascii c (h c hc)]
      exact hd c hc

/-- Claim C5, corrected: `validate_phone_numbers` strips each entry and
keeps, in input order, exactly those passing the source's test — starts with
`"09"`, exactly 10 characters, and Python `str.isdigit` — excluding invalid
entries without aborting; and on ASCII input (every character below U+0080)
that test is exactly the claim's "every character is a decimal digit".  For
general input the claim's decimal-digit reading is false, since
`str.isdigit` also accepts non-decimal digit characters such as `'²'` (see
the counterexample). -/
theorem claim_C5_phone_validation (phone_numbers : List String) :
    validate_phone_numbers phone_numbers =
      ((phone_numbers.map pyStrip).all isValidPhone,
       (phone_numbers.map pyStrip).filter isValidPhone) ∧
    (∀ s, s ∈ (validate_phone_numbers phone_numbers).2 ↔
      ∃ p ∈ phone_numbers, pyStrip p = s ∧
        (pyStartsWith s "09" = true ∧ pyLen s = 10 ∧ pyIsDigit s = true)) ∧
    (∀ s : String, (∀ c ∈ s.toList, c.toNat < 128) →
      (isValidPhone s = true ↔
        (pyStartsWith s "09" = true ∧ pyLen s = 10 ∧
         ∀ c ∈ s.toList, c.isDigit = true))) := by
  have hval : validate_phone_numbers phone_numbers =
      ((phone_numbers.map pyStrip).all isValidPhone,
       (phone_numbers.map pyStrip).filter isValidPhone) := by
    unfold validate_phone_numbers
    rw [validate_foldl phone_numbers [] []]
    simp [length_filter_not_eq_zero]
  refine ⟨hval, ?_, fun s hasc => isValidPhone_ascii_iff s hasc⟩
  intro s
  rw [hval]
  simp only [List.mem_filter, List.mem_map]
  constructor
  · rintro ⟨⟨p, hp, rfl⟩, hv⟩
    refine ⟨p, hp, rfl, ?_⟩
    simp only [isValidPhone, Bool.and_eq_true, beq_iff_eq] at hv
    exact ⟨hv.1.1, hv.1.2, hv.2⟩
  · rintro ⟨p, hp, rfl, hv⟩
    refine ⟨⟨p, hp, rfl⟩, ?_⟩
    simp only [isValidPhone, Bool.and_eq_true, beq_iff_eq]
    exact ⟨⟨hv.1, hv.2.1⟩, hv.2.2⟩

/-- Witness for C5 at concrete inputs: a valid/invalid mix, and the ASCII
decimal-digit reading discharged at `"0912345678"`. -/
theorem claim_C5_phone_validation_witness :
    (validate_phone_numbers ["0912345678", "12345"]).2 = ["0912345678"] ∧
    (isValidPhone "0912345678" = true ↔
      (pyStartsWith "0912345678" "09" = true ∧ pyLen "0912345678" = 10 ∧
       ∀ c ∈ "0912345678".toList, c.isDigit = true)) := by
  constructor
  · rw [(claim_C5_phone_validation ["0912345678", "12345"]).1]
    decide
  · exact (claim_C5_phone_validation ["0912345678", "12345"]).2.2 "0912345678"
      (by decide)

/-- Counterexample to claim C5 as stated: Python `str.isdigit` accepts the
superscript `'²'`, so `validate_phone_numbers` classifies `"09²3456789"` —
ten characters, `"09"` prefix, but containing a character that is not a
decimal digit — as valid, where the claim classifies it invalid. -/
theorem claim_C5_phone_validation_counterexample :
    "09²3456789" ∈ (validate_phone_numbers ["09²3456789"]).2 ∧
    pyCharIsDigit '²' = true ∧
    ¬(∀ c ∈ "09²3456789".toList, c.isDigit = true) := by decide

/-- Splitting every fragment on `sep` and concatenating, as the inner loop of
`format_phone_list` does, starting from any already-built list. -/
theorem foldl_split_append (sep : Char) (L : List String) :
    ∀ init : List String,
      L.foldl (fun new_list phone => new_list ++ pySplit phone sep) init =
        init ++ L.flatMap (fun phone => pySplit phone sep) := by
  induction L with
  | nil => simp
  | cons x xs ih =>
    intro init
    simp [List.foldl_cons, ih, List.flatMap_cons, List.append_assoc]

/-- Claim C7: `format_phone_list` splits its input on commas and semicolons
(either or both present in the same string), strips whitespace from every
fragment, and drops empty fragments; in particular the free-form input
`"0912345678,0987654321;12345"` parses to three fragments, and validation
then keeps exactly `["0912345678", "0987654321"]`, dropping `"12345"`. -/
theorem claim_C7_free_form_parsing (s : String) :
    format_phone_list s =
      (((pySplit s ',').flatMap (fun t => pySplit t ';')).map pyStrip).filter
        (fun t => !(t == "")) ∧
    format_phone_list "0912345678,0987654321;12345" =
      ["0912345678", "0987654321", "12345"] ∧
    (validate_phone_numbers
        (format_phone_list "0912345678,0987654321;12345")).2 =
      ["0912345678", "0987654321"] := by
  refine ⟨?_, by decide, by decide⟩
  unfold format_phone_list
  dsimp only
  rw [List.foldl_cons, List.foldl_cons, List.foldl_nil]
  rw [foldl_split_append ',' [s] [], foldl_split_append ';' _ []]
  simp only [List.nil_append, List.flatMap_cons, List.flatMap_nil, List.append_nil]
  rw [List.filter_map]
  rfl

/-- Concatenation of a list of strings, in order. -/
def concatStrings (l : List String) : String := l.foldr (· ++ ·) ""

/-- The string-building loop `for recipient in recipients: xml_request += …`
    appends, in order, one piece per list element to the accumulated string. -/
theorem foldl_append_concat (g : String → String) (L : List String) :
    ∀ acc : String,
      L.foldl (fun a r => a ++ g r) acc = acc ++ concatStrings (L.map g) := by
  induction L with
  | nil =>
    intro acc
    simp [concatStrings]
  | cons x xs ih =>
    intro acc
    rw [List.foldl_cons, ih]
    simp [concatStrings, String.append_assoc]

set_option maxRecDepth 10000 in
/-- Claim C8: `_build_xml_request` produces the fixed field order `SysId`,
`SrcAddress`, then exactly one `DestAddress` element per recipient in list
order, then `SmsBody`, `DrFlag`, `FirstFailFlag`; the `SmsBody` content is
the base64 encoding of the body's UTF-8 bytes, never the raw plaintext
body — checked concretely on recipients `["0912345678", "0987654321"]` and
body `"hello"` (base64 `"aGVsbG8="`), whose built document contains both
`DestAddress` elements and the base64 body but not the plaintext. -/
theorem claim_C8_xml_request_structure (cfg : GatewayConfig)
    (recipients : List String) (message : String) :
    _build_xml_request cfg recipients message =
      reqOpening cfg ++ concatStrings (recipients.map destAddressElem)
        ++ reqClosing cfg message ∧
    b64encode "hello" = "aGVsbG8=" ∧
    strContains
      (_build_xml_request ⟨"ENT001", "01234500000000001234", true, false⟩
        ["0912345678", "0987654321"] "hello")
      "<DestAddress>0912345678</DestAddress>" = true ∧
    strContains
      (_build_xml_request ⟨"ENT001", "01234500000000001234", true, false⟩
        ["0912345678", "0987654321"] "hello")
      "<DestAddress>0987654321</DestAddress>" = true ∧
    strContains
      (_build_xml_request ⟨"ENT001", "01234500000000001234", true, false⟩
        ["0912345678", "0987654321"] "hello")
      "<SmsBody>aGVsbG8=</SmsBody>" = true ∧
    strContains
      (_build_xml_request ⟨"ENT001", "01234500000000001234", true, false⟩
        ["0912345678", "0987654321"] "hello")
      "hello" = false := by
  refine ⟨?_, by decide, by decide, by decide, by decide, by decide⟩
  unfold _build_xml_request
  rw [foldl_append_concat destAddressElem recipients (reqOpening cfg)]

/-- The `range(0, n, 20)` slicing loop, unrolled one step: on a non-empty
    list it yields the first 20 elements, then the batches of the rest. -/
theorem batches_cons {α : Type} (l : List α) (h : l ≠ []) :
    batches l = l.take 20 :: batches (l.drop 20) := by
  have hn : 1 ≤ l.length := List.length_pos.mpr h
  unfold batches pyRange batch_size
  have hcount : (l.length + 20 - 1) / 20 = ((l.drop 20).length + 20 - 1) / 20 + 1 := by
    rw [List.length_drop]
    omega
  rw [hcount, List.range_succ_eq_map, List.map_cons, List.map_cons]
  simp only [List.map_map, Nat.zero_mul, List.drop_zero]
  refine congrArg₂ List.cons rfl ?_
  refine List.map_congr_left ?_
  intro i _
  simp only [Function.comp_apply]
  rw [List.drop_drop]
  congr 2
  omega

/-- `chunks20` is empty exactly on the empty list. -/
theorem chunks20_eq_nil_iff {α : Type} (l : List α) :
    chunks20 l = [] ↔ l = [] := by
  cases l <;> simp [chunks20]

/-- The slicing loop and the recursive chunking agree. -/
theorem batches_eq_chunks20 {α : Type} (l : List α) : batches l = chunks20 l := by
  induction l using chunks20.induct with
  | case1 =>
    rw [show chunks20 ([] : List α) = [] from by simp [chunks20]]
    simp [batches, pyRange, batch_size]
  | case2 head tail ih =>
    rw [batches_cons (head :: tail) (by simp), ih]
    conv_rhs => rw [chunks20]

/-- Concatenating the chunks gives back the input: every element is covered
    exactly once, in order. -/
theorem chunks20_flatten {α : Type} (l : List α) : (chunks20 l).flatten = l := by
  induction l using chunks20.induct with
  | case1 => simp [chunks20]
  | case2 head tail ih =>
    conv_lhs => rw [chunks20]
    rw [List.flatten_cons, ih, List.take_append_drop]

/-- Every chunk is non-empty and holds at most 20 entries. -/
theorem chunks20_sizes {α : Type} (l : List α) :
    ∀ c ∈ chunks20 l, c ≠ [] ∧ c.length ≤ 20 := by
  induction l using chunks20.induct with
  | case1 => simp [chunks20]
  | case2 head tail ih =>
    rw [chunks20]
    intro c hc
    rcases List.mem_cons.mp hc with hc | hc
    · subst hc
      constructor
      · simp
      · simp [List.length_take]
    · exact ih c hc

/-- Every chunk except possibly the last holds exactly 20 entries. -/
theorem chunks20_dropLast_sizes {α : Type} (l : List α) :
    ∀ c ∈ (chunks20 l).dropLast, c.length = 20 := by
  induction l using chunks20.induct with
  | case1 => simp [chunks20]
  | case2 head tail ih =>
    rw [chunks20]
    by_cases hd : (head :: tail).drop 20 = []
    · rw [hd]
      simp [chunks20]
    · have hne : chunks20 ((head :: tail).drop 20) ≠ [] := by
        simpa [chunks20_eq_nil_iff] using hd
      rw [List.dropLast_cons_of_ne_nil hne]
      intro c hc
      rcases List.mem_cons.mp hc with hc | hc
      · subst hc
        have hpos : 0 < ((head :: tail).drop 20).length := List.length_pos.mpr hd
        rw [List.length_drop] at hpos
        simp only [List.length_take, List.length_cons] at hpos ⊢
        omega
      · exact ih c hc

/-- A 45-element input yields exactly the batch sizes 20, 20, 5. -/
theorem batches_sizes_45 {α : Type} (l : List α) (h : l.length = 45) :
    (batches l).map List.length = [20, 20, 5] := by
  unfold batches pyRange batch_size
  rw [h]
  rw [show ((45 + 20 - 1) / 20) = 3 from rfl,
      show List.range 3 = [0, 1, 2] from rfl]
  simp [List.length_take, List.length_drop, h]

/-- Claim C6: the batching loop partitions every non-empty validated phone
list into consecutive chunks of at most 20 entries, each chunk non-empty,
order preserved, the concatenation of all chunks giving back the input, with
every chunk but the last holding exactly 20 entries; and every 45-element
input yields exactly 3 batches of sizes 20, 20 and 5. -/
theorem claim_C6_batching (valid_phones : List String)
    (h : valid_phones ≠ []) :
    (batches valid_phones).flatten = valid_phones ∧
    (∀ c ∈ batches valid_phones, c ≠ [] ∧ c.length ≤ 20) ∧
    (∀ c ∈ (batches valid_phones).dropLast, c.length = 20) ∧
    (∀ l : List String, l.length = 45 →
      (batches l).map List.length = [20, 20, 5]) := by
  rw [batches_eq_chunks20]
  exact ⟨chunks20_flatten valid_phones, chunks20_sizes valid_phones,
    chunks20_dropLast_sizes valid_phones, fun l hl => batches_sizes_45 l hl⟩

/-- Witness for C6 at a concrete 45-recipient input. -/
theorem claim_C6_batching_witness :
    (batches (List.replicate 45 "0912345678")).flatten
      = List.replicate 45 "0912345678" ∧
    (batches (List.replicate 45 "0912345678")).map List.length
      = [20, 20, 5] := by
  refine ⟨(claim_C6_batching (List.replicate 45 "0912345678") (by decide)).1, ?_⟩
  exact (claim_C6_batching (List.replicate 45 "0912345678") (by decide)).2.2.2
    (List.replicate 45 "0912345678") (by decide)

/-- Claim C1 is refuted by the code: `get_pending_sms_messages`' SELECT list
returns the lowercase keys `smskey`, `message_body`, `recipient_no`,
`schedule_date`, but the tick reads `message['RecipientNo']`, so every due
row raises `KeyError('RecipientNo')` inside the per-row handler: whatever
the network and the store would do, the gateway is never invoked, no status
update (and hence no `send_date`) is ever written, and the tick reports
`processed_count = 0` — evaluated here on a concrete due row. -/
theorem claim_C1_scheduler_row_keyerror
    (net : List String → String → NetResult)
    (upd : Int → Except PyExc Unit) :
    processRow net upd
        (PendingRow.toDict ⟨1, "hi", "0912345678,0987654321", Option.none⟩)
      = (.error (.keyError "RecipientNo"), []) ∧
    process_scheduled_sms net upd
        (.ok [PendingRow.toDict ⟨1, "hi", "0912345678,0987654321", Option.none⟩])
      = (.ok 0 1, []) :=
  ⟨rfl, rfl⟩

/-- Claim C2 is refuted by the code: on a batch whose gateway call succeeds,
`send_sms_now` evaluates `datetime.now().replace('T', ' ')` while building
the `insert_sms_message` arguments, which raises `TypeError` before any
record is written — the endpoint answers `success: False` with nothing
persisted; and on a batch whose gateway call fails, the `if success:` guard
skips persistence entirely, so the endpoint answers `success: True` with an
empty key list and, again, nothing persisted.  Either way no dispatch
record is ever persisted by the immediate path. -/
theorem claim_C2_immediate_send_persists_nothing :
    send_sms_now
        (fun _ _ => NetResult.response 200 (XmlBody.wellFormed
          [("ResultCode", some "00000"), ("ResultText", some "OK"),
           ("MessageId", some "M1")]))
        "hi" ["0912345678"] 1
      = (.failed "replace() argument 1 must be int, not str",
         [Event.gatewayCall ["0912345678"] "hi"]) ∧
    send_sms_now
        (fun _ _ => NetResult.response 500 (XmlBody.wellFormed []))
        "hi" ["0912345678"] 1
      = (.ok [] [⟨some "HTTP_ERROR", some ("HTTP錯誤: " ++ toString 500), some ""⟩],
         [Event.gatewayCall ["0912345678"] "hi"]) ∧
    (send_sms_now
        (fun _ _ => NetResult.response 200 (XmlBody.wellFormed
          [("ResultCode", some "00000"), ("ResultText", some "OK"),
           ("MessageId", some "M1")]))
        "hi" ["0912345678"] 1).2.filter Event.isInsert = [] ∧
    (send_sms_now
        (fun _ _ => NetResult.response 500 (XmlBody.wellFormed []))
        "hi" ["0912345678"] 1).2.filter Event.isInsert = [] := by
  refine ⟨by decide, by decide, by decide, by decide⟩

/-- The row loop of the tick appends each row's external calls to the log no
matter what the other rows did, with any per-row exception consumed. -/
theorem processLoop_foldl_events (net : List String → String → NetResult)
    (upd : Int → Except PyExc Unit) (msgs : List PyDict) :
    ∀ acc : Nat × List Event,
      (msgs.foldl
        (fun acc message =>
          match processRow net upd message with
          | (.ok success, evts) =>
            (if success then acc.1 + 1 else acc.1, acc.2 ++ evts)
          | (.error _, evts) => (acc.1, acc.2 ++ evts))
        acc).2 =
      acc.2 ++ msgs.flatMap (fun m => (processRow net upd m).2) := by
  induction msgs with
  | nil =>
    intro acc
    simp
  | cons m rest ih =>
    intro acc
    rw [List.foldl_cons, ih]
    rcases hm : processRow net upd m with ⟨r, evts⟩
    cases r <;> simp [hm, List.flatMap_cons, List.append_assoc]

/-- Claim C9: within one tick, an exception raised while processing one due
row is caught per row and the remaining rows are still processed — the
tick's external-call log is exactly the concatenation of every row's own
calls, whatever errors individual rows raise — the tick itself answers a
response (a fetch failure is caught at tick level), and the polling loop
consumes any exception an iteration produces and keeps running: after any
number of iterations with arbitrary outcomes it is still running normally. -/
theorem claim_C9_error_containment :
    (∀ (net : List String → String → NetResult)
        (upd : Int → Except PyExc Unit) (m : PyDict) (rest : List PyDict),
      (processLoop net upd (m :: rest)).2
        = (processRow net upd m).2 ++ (processLoop net upd rest).2) ∧
    (∀ (net : List String → String → NetResult)
        (upd : Int → Except PyExc Unit) (msgs : List PyDict),
      (processLoop net upd msgs).2
        = msgs.flatMap (fun m => (processRow net upd m).2)) ∧
    (∀ (net : List String → String → NetResult)
        (upd : Int → Except PyExc Unit) (e : PyExc),
      process_scheduled_sms net upd (.error e) = (.failed e.text, [])) ∧
    (∀ (ticks : Nat → Except PyExc Unit) (n : Nat),
      scheduled_task_run ticks n = .ok ()) := by
  have hloop : ∀ (net : List String → String → NetResult)
      (upd : Int → Except PyExc Unit) (msgs : List PyDict),
      (processLoop net upd msgs).2
        = msgs.flatMap (fun m => (processRow net upd m).2) := by
    intro net upd msgs
    unfold processLoop
    rw [processLoop_foldl_events net upd msgs (0, [])]
    simp
  refine ⟨?_, hloop, ?_, ?_⟩
  · intro net upd m rest
    rw [hloop, hloop, List.flatMap_cons]
  · intro net upd e
    rfl
  · intro ticks n
    induction n with
    | zero => rfl
    | succ n ih =>
      unfold scheduled_task_run at ih ⊢
      rw [List.range_succ, List.foldl_append, ih]
      cases h : ticks n <;> simp [scheduled_task_step, Except.bind, h]

/-- The keys the store's sequence assigns to consecutive inserts. -/
def assignedKeys (next_key : Int) : List MsgDict → List Int
  | [] => []
  | _ :: rest => next_key :: assignedKeys (next_key + 1) rest

/-- The rows consecutive inserts persist, one per message, in input order. -/
def insertedRows (next_key : Int) : List MsgDict → List SmsRow
  | [] => []
  | m :: rest => m.toRow next_key :: insertedRows (next_key + 1) rest

/-- One key is assigned per message. -/
theorem assignedKeys_length (next_key : Int) (msgs : List MsgDict) :
    (assignedKeys next_key msgs).length = msgs.length := by
  induction msgs generalizing next_key with
  | nil => rfl
  | cons m rest ih => simp [assignedKeys, ih]

/-- The insert loop either completes, having appended exactly one row per
message with consecutive keys, or raises, whatever prefix of inserts had
already run on the uncommitted transaction state. -/
theorem batchInsertGo_spec (fail : Nat → Bool) (msgs : List MsgDict) :
    ∀ (i : Nat) (db : Db) (keys : List Int),
      batchInsertGo fail msgs i db keys =
        .ok (⟨db.rows ++ insertedRows db.next_key msgs,
              db.next_key + msgs.length⟩,
             keys ++ assignedKeys db.next_key msgs) ∨
      ∃ e, batchInsertGo fail msgs i db keys = .error e := by
  induction msgs with
  | nil =>
    intro i db keys
    left
    simp [batchInsertGo, insertedRows, assignedKeys]
  | cons m rest ih =>
    intro i db keys
    by_cases hf : fail i
    · right
      exact ⟨.dbError "insert failed", by simp [batchInsertGo, hf]⟩
    · rcases ih (i + 1) ⟨db.rows ++ [m.toRow db.next_key], db.next_key + 1⟩
        (keys ++ [db.next_key]) with hok | ⟨e, he⟩
      · left
        rw [show batchInsertGo fail (m :: rest) i db keys
              = batchInsertGo fail rest (i + 1)
                  ⟨db.rows ++ [m.toRow db.next_key], db.next_key + 1⟩
                  (keys ++ [db.next_key]) from by simp [batchInsertGo, hf]]
        rw [hok]
        simp only [insertedRows, assignedKeys, List.append_assoc,
          List.singleton_append, List.length_cons]
        push_cast
        ring_nf
      · right
        refine ⟨e, ?_⟩
        rw [show batchInsertGo fail (m :: rest) i db keys
              = batchInsertGo fail rest (i + 1)
                  ⟨db.rows ++ [m.toRow db.next_key], db.next_key + 1⟩
                  (keys ++ [db.next_key]) from by simp [batchInsertGo, hf]]
        exact he

/-- Claim C10: `batch_insert_sms_messages` is atomic — all inserts run on
one cursor inside a single transaction, committed once, so either every
input message yields a persisted row (with consecutive keys, one key per
message, in input order) and the key list is returned, or some insert raised
and the rolled-back store is exactly as before the call. -/
theorem claim_C10_batch_insert_atomic (fail : Nat → Bool)
    (messages : List MsgDict) (db : Db) :
    (batch_insert_sms_messages fail messages db =
        (.ok (assignedKeys db.next_key messages),
         ⟨db.rows ++ insertedRows db.next_key messages,
          db.next_key + messages.length⟩) ∧
      (assignedKeys db.next_key messages).length = messages.length) ∨
    (∃ e, batch_insert_sms_messages fail messages db = (.error e, db)) := by
  cases messages with
  | nil =>
    left
    refine ⟨?_, rfl⟩
    simp [batch_insert_sms_messages, assignedKeys, insertedRows]
  | cons m rest =>
    rcases batchInsertGo_spec fail (m :: rest) 0 db [] with hok | ⟨e, he⟩
    · left
      refine ⟨?_, assignedKeys_length db.next_key (m :: rest)⟩
      simp only [batch_insert_sms_messages]
      rw [hok]
      simp
    · right
      refine ⟨e, ?_⟩
      simp only [batch_insert_sms_messages]
      rw [he]
